import Mathlib

/-!
Shallow embedding of `decision_engine.py` (Database Decision Assistance).

The Python module defines a `DecisionEngine` whose static tables are built at
construction time (`_initialize_scoring_rules`, `_initialize_database_profiles`)
and whose methods (`calculate_scores`, `generate_database_profiles`,
`identify_tradeoffs`, `generate_recommendation`, `suggest_alternatives`,
`analyze`) are pure functions of those tables and the `user_inputs` dict.
Here the static tables become top-level definitions and each method becomes a
Lean function.

Python dict access `user_inputs['app_type']` raises `KeyError` for a missing
key; we model the five-key input dict as a record of `Option String` fields and
a raised `KeyError` as `Except.error`.  Scores are Python ints, modelled as
`Int`.  `profiles.sort(key=lambda x: x.score, reverse=True)` is a stable
descending sort, modelled by `List.insertionSort` with the reflexive relation
`fun a b => b.score ≤ a.score` (stable: an earlier element is kept before a
later element of equal score, exactly as CPython's stable sort does).
`profiles[0]` on an empty list would raise `IndexError`; `generate_recommendation`
therefore returns an `Option`, with `none` standing for that exception.
-/

/-- Per-candidate integer values, i.e. a Python dict keyed by the three fixed
databases `mysql`, `postgresql`, `mongodb` (the `self.databases` order). -/
structure Scores where
  mysql : Int
  postgresql : Int
  mongodb : Int
deriving DecidableEq, Repr

/-- The three fixed candidate identifiers, in `self.databases` order. -/
inductive DBId
  | mysql
  | postgresql
  | mongodb
deriving DecidableEq, Fintype, Repr

/-- Projection of a `Scores` record at one candidate (dict lookup `scores[db]`). -/
def Scores.get (s : Scores) : DBId → Int
  | .mysql => s.mysql
  | .postgresql => s.postgresql
  | .mongodb => s.mongodb

/-- `DatabaseProfile` dataclass. -/
structure DatabaseProfile where
  name : String
  db_type : String
  score : Int
  pros : List String
  cons : List String
deriving DecidableEq, Repr

/-- `Tradeoff` dataclass. -/
structure Tradeoff where
  title : String
  description : String
deriving DecidableEq, Repr

/-- `Alternative` dataclass (named to avoid the core `Alternative` class). -/
structure AltSuggestion where
  database : String
  reason : String
deriving DecidableEq, Repr

/-- `Recommendation` dataclass. -/
structure Recommendation where
  database : String
  confidence : String
  reasoning : List String
deriving DecidableEq, Repr

/-- The dict returned by `DecisionEngine.analyze`. -/
structure AnalysisResult where
  profiles : List DatabaseProfile
  tradeoffs : List Tradeoff
  recommendation : Recommendation
  alternatives : List AltSuggestion
  scores : Scores
deriving DecidableEq, Repr

/-- `self.app_type_scores` table: value string → per-candidate points. -/
def app_type_scores (v : String) : Option Scores :=
  if v = "Web" then some ⟨3, 3, 2⟩
  else if v = "Analytics" then some ⟨2, 4, 1⟩
  else if v = "Real-time" then some ⟨2, 2, 4⟩
  else none

/-- `self.data_structure_scores` table. -/
def data_structure_scores (v : String) : Option Scores :=
  if v = "Structured" then some ⟨4, 4, 1⟩
  else if v = "Semi-structured" then some ⟨2, 3, 4⟩
  else if v = "Unstructured" then some ⟨1, 2, 4⟩
  else none

/-- `self.scalability_scores` table. -/
def scalability_scores (v : String) : Option Scores :=
  if v = "Low" then some ⟨3, 3, 2⟩
  else if v = "Medium" then some ⟨3, 3, 3⟩
  else if v = "High" then some ⟨2, 2, 4⟩
  else none

/-- `self.transaction_scores` table. -/
def transaction_scores (v : String) : Option Scores :=
  if v = "Low" then some ⟨2, 2, 3⟩
  else if v = "High" then some ⟨4, 4, 2⟩
  else none

/-- `self.schema_scores` table. -/
def schema_scores (v : String) : Option Scores :=
  if v = "Yes" then some ⟨1, 2, 4⟩
  else if v = "No" then some ⟨4, 4, 2⟩
  else none

/-- `self.db_profiles['mysql']` merged with a score into a `DatabaseProfile`. -/
def mysqlProfile (score : Int) : DatabaseProfile :=
  { name := "MySQL"
    db_type := "Relational (SQL)"
    score := score
    pros := [
      "Mature and widely adopted with extensive community support",
      "Excellent for structured data with ACID compliance",
      "Strong performance for read-heavy workloads",
      "Easy to learn and widely supported by hosting providers",
      "Great for traditional web applications"]
    cons := [
      "Limited support for complex analytics queries",
      "Horizontal scaling requires additional complexity (sharding)",
      "Less flexible with schema changes",
      "JSON support is basic compared to PostgreSQL",
      "Advanced features lag behind PostgreSQL"] }

/-- `self.db_profiles['postgresql']` merged with a score. -/
def postgresqlProfile (score : Int) : DatabaseProfile :=
  { name := "PostgreSQL"
    db_type := "Relational (SQL)"
    score := score
    pros := [
      "Most advanced open-source relational database",
      "Excellent for complex queries and analytics",
      "Superior JSON/JSONB support for semi-structured data",
      "Strong extensibility with custom functions and data types",
      "Best-in-class data integrity and ACID compliance"]
    cons := [
      "Slightly steeper learning curve than MySQL",
      "Higher memory consumption",
      "Horizontal scaling still requires effort",
      "Can be overkill for simple applications",
      "Configuration complexity for optimization"] }

/-- `self.db_profiles['mongodb']` merged with a score. -/
def mongodbProfile (score : Int) : DatabaseProfile :=
  { name := "MongoDB"
    db_type := "NoSQL (Document)"
    score := score
    pros := [
      "Excellent horizontal scalability (built-in sharding)",
      "Schema flexibility for evolving data models",
      "High performance for real-time applications",
      "Natural fit for JSON/document-based data",
      "Easy to get started with minimal setup"]
    cons := [
      "Eventual consistency can complicate transactions",
      "No built-in joins (requires application-level logic)",
      "Higher storage overhead",
      "Not ideal for complex relational data",
      "ACID transactions only within single documents by default"] }

/-- The `user_inputs` dict restricted to the five keys the engine ever reads.
A `none` field models an absent key. -/
structure UserInputs where
  app_type : Option String
  data_structure : Option String
  scalability : Option String
  transactions : Option String
  schema_flexibility : Option String
deriving DecidableEq

/-- An input dict known to contain all five keys (their string values). -/
structure RawInputs where
  app_type : String
  data_structure : String
  scalability : String
  transactions : String
  schema_flexibility : String
deriving DecidableEq, Repr

/-- Python dict access `user_inputs[key]`: the value, or a raised `KeyError`. -/
def getKey (v : Option String) (key : String) : Except String String :=
  match v with
  | some s => Except.ok s
  | none => Except.error ("KeyError: " ++ key)

/-- A dict holding exactly the five keys with the given values. -/
def toUserInputs (raw : RawInputs) : UserInputs :=
  ⟨some raw.app_type, some raw.data_structure, some raw.scalability,
   some raw.transactions, some raw.schema_flexibility⟩

/-- Reads the five keys in the order `calculate_scores` first accesses them. -/
def extractInputs (u : UserInputs) : Except String RawInputs := do
  let a ← getKey u.app_type "app_type"
  let d ← getKey u.data_structure "data_structure"
  let sc ← getKey u.scalability "scalability"
  let t ← getKey u.transactions "transactions"
  let f ← getKey u.schema_flexibility "schema_flexibility"
  return ⟨a, d, sc, t, f⟩

def scoresZero : Scores := ⟨0, 0, 0⟩

/-- Pointwise sum over the three candidates (`for db in self.databases: ...`). -/
def addScores (s c : Scores) : Scores :=
  ⟨s.mysql + c.mysql, s.postgresql + c.postgresql, s.mongodb + c.mongodb⟩

/-- One criterion block of `calculate_scores`:
`if value in matrix: for db in databases: scores[db] += matrix[value][db]`.
An unknown value leaves the running totals unchanged. -/
def addCriterion (s : Scores) (matrix : String → Option Scores) (v : String) : Scores :=
  match matrix v with
  | some c => addScores s c
  | none => s

/-- The points one criterion contributes given the selected value: the matrix
row, or zero for every candidate when the value is absent from the matrix. -/
def contributionOf (matrix : String → Option Scores) (v : String) : Scores :=
  match matrix v with
  | some c => c
  | none => ⟨0, 0, 0⟩

/-- `calculate_scores` on an input dict whose five keys are all present. -/
def calcScores (raw : RawInputs) : Scores :=
  addCriterion
    (addCriterion
      (addCriterion
        (addCriterion
          (addCriterion scoresZero app_type_scores raw.app_type)
          data_structure_scores raw.data_structure)
        scalability_scores raw.scalability)
      transaction_scores raw.transactions)
    schema_scores raw.schema_flexibility

/-- `DecisionEngine.calculate_scores(user_inputs)`: the five criterion blocks
in source order; each accesses its dict key (possible `KeyError`), then adds
that criterion's matrix row to the running totals when the value is known. -/
def calculate_scores (u : UserInputs) : Except String Scores := do
  let a ← getKey u.app_type "app_type"
  let s1 := addCriterion scoresZero app_type_scores a
  let d ← getKey u.data_structure "data_structure"
  let s2 := addCriterion s1 data_structure_scores d
  let sc ← getKey u.scalability "scalability"
  let s3 := addCriterion s2 scalability_scores sc
  let t ← getKey u.transactions "transactions"
  let s4 := addCriterion s3 transaction_scores t
  let f ← getKey u.schema_flexibility "schema_flexibility"
  let s5 := addCriterion s4 schema_scores f
  return s5

/-- `DecisionEngine.generate_database_profiles(scores)`: build the three
profiles in `self.databases` order, then
`profiles.sort(key=lambda x: x.score, reverse=True)` — a stable descending
sort, rendered as an insertion sort on the relation `b.score ≤ a.score`. -/
def generate_database_profiles (scores : Scores) : List DatabaseProfile :=
  List.insertionSort (fun a b => b.score ≤ a.score)
    [mysqlProfile scores.mysql, postgresqlProfile scores.postgresql,
     mongodbProfile scores.mongodb]

/-- First trade-off rule's payload (`Schema Rigidity vs Flexibility`). -/
def schemaRigidityTradeoff : Tradeoff :=
  { title := "Schema Rigidity vs Flexibility"
    description := "You want structured data but also schema flexibility. SQL databases enforce schemas strongly, while MongoDB offers flexibility but sacrifices relational integrity." }

/-- Second trade-off rule's payload (`Consistency vs Scalability`). -/
def consistencyTradeoff : Tradeoff :=
  { title := "Consistency vs Scalability (CAP Theorem)"
    description := "High scalability often requires eventual consistency (MongoDB), but high transaction requirements need strong ACID guarantees (PostgreSQL/MySQL). This is a fundamental distributed systems trade-off." }

/-- Third trade-off rule's payload (`SQL vs NoSQL for Analytics`). -/
def sqlVsNoSqlTradeoff : Tradeoff :=
  { title := "SQL vs NoSQL for Analytics"
    description := "SQL databases excel at complex queries and joins, but NoSQL scales better horizontally. Consider PostgreSQL with read replicas or specialized analytics databases like ClickHouse." }

/-- Fourth trade-off rule's payload (`Document Flexibility vs Transaction Integrity`). -/
def documentFlexibilityTradeoff : Tradeoff :=
  { title := "Document Flexibility vs Transaction Integrity"
    description := "MongoDB handles unstructured data well but has limited multi-document transaction support. PostgreSQL JSONB offers a middle ground with strong transactions and flexible document storage." }

/-- Fifth trade-off rule's payload (`Read Optimization vs Write Optimization`). -/
def readWriteTradeoff : Tradeoff :=
  { title := "Read Optimization vs Write Optimization"
    description := "MySQL excels at read-heavy workloads, MongoDB at write-heavy ones. PostgreSQL balances both. Consider your read/write ratio." }

/-- `DecisionEngine.identify_tradeoffs(user_inputs)`: the five `if` blocks in
source order, each appending its trade-off when its conjunction holds. -/
def identify_tradeoffs (raw : RawInputs) : List Tradeoff :=
  (if raw.data_structure = "Structured" ∧ raw.schema_flexibility = "Yes"
    then [schemaRigidityTradeoff] else [])
  ++ (if raw.scalability = "High" ∧ raw.transactions = "High"
    then [consistencyTradeoff] else [])
  ++ (if raw.app_type = "Analytics" ∧ raw.scalability = "High"
    then [sqlVsNoSqlTradeoff] else [])
  ++ (if raw.data_structure = "Unstructured" ∧ raw.transactions = "High"
    then [documentFlexibilityTradeoff] else [])
  ++ (if raw.app_type = "Web" then [readWriteTradeoff] else [])

/-- The five trade-off rules as (trigger predicate, payload) pairs in
declaration order, for stating rule-independence. -/
def tradeoffRules : List ((RawInputs → Bool) × Tradeoff) :=
  [ (fun raw => raw.data_structure == "Structured" && raw.schema_flexibility == "Yes",
      schemaRigidityTradeoff),
    (fun raw => raw.scalability == "High" && raw.transactions == "High",
      consistencyTradeoff),
    (fun raw => raw.app_type == "Analytics" && raw.scalability == "High",
      sqlVsNoSqlTradeoff),
    (fun raw => raw.data_structure == "Unstructured" && raw.transactions == "High",
      documentFlexibilityTradeoff),
    (fun raw => raw.app_type == "Web", readWriteTradeoff) ]

/-- The branch-dependent reasoning list `generate_recommendation` builds before
the closeness note: one opening sentence for the top candidate plus its gated
conditional sentences, exactly as in the source's three branches. -/
def baseReasoning (topName : String) (raw : RawInputs) : List String :=
  if topName = "MySQL" then
    ["MySQL is recommended for your traditional web application needs with structured data."]
    ++ (if raw.transactions = "High"
        then ["Strong ACID compliance meets your transaction requirements."] else [])
    ++ (if raw.scalability ≠ "High"
        then ["Vertical scaling is sufficient for your scalability needs."] else [])
    ++ (if raw.app_type = "Web"
        then ["Proven track record for web applications with excellent community support."]
        else [])
  else if topName = "PostgreSQL" then
    ["PostgreSQL offers the best balance of advanced features for your requirements."]
    ++ (if raw.app_type = "Analytics"
        then ["Superior query optimization and window functions support complex analytics workloads."]
        else [])
    ++ (if raw.data_structure = "Semi-structured"
        then ["Excellent JSONB support handles semi-structured data efficiently while maintaining relational integrity."]
        else [])
    ++ (if raw.transactions = "High"
        then ["Industry-leading ACID compliance and advanced transaction isolation ensures data integrity."]
        else [])
    ++ (if raw.schema_flexibility = "Yes"
        then ["JSONB and extension support provide flexibility while maintaining SQL capabilities."]
        else [])
  else
    ["MongoDB is the best choice for your scalability and flexibility needs."]
    ++ (if raw.scalability = "High"
        then ["Built-in sharding provides excellent horizontal scalability without complex configuration."]
        else [])
    ++ (if raw.schema_flexibility = "Yes"
        then ["Schema-less design allows rapid iteration and accommodates evolving data models."]
        else [])
    ++ (if raw.app_type = "Real-time"
        then ["Optimized for high-throughput real-time applications with low-latency operations."]
        else [])
    ++ (if raw.data_structure = "Unstructured"
        then ["Document model naturally fits unstructured and hierarchical data."] else [])

/-- The f-string closeness note naming the runner-up and both scores. -/
def closenessNote (top second : DatabaseProfile) : String :=
  "Note: " ++ second.name ++ " scored closely (" ++ toString second.score
    ++ " vs " ++ toString top.score
    ++ "). Consider evaluating both options based on team expertise."

/-- `DecisionEngine.generate_recommendation(profiles, user_inputs)`.
`none` models the `IndexError` Python would raise on an empty profile list
(`profiles[0]`).  With at least one profile: branch on the top name to build
the reasoning, append the closeness note when a runner-up exists and
`profiles[0].score - profiles[1].score <= 2`, and derive the confidence from
the same gap, treated as 5 when there is no runner-up. -/
def generate_recommendation (profiles : List DatabaseProfile) (raw : RawInputs) :
    Option Recommendation :=
  match profiles with
  | [] => none
  | top :: rest =>
    let base := baseReasoning top.name raw
    let reasoning :=
      match rest with
      | [] => base
      | second :: _ =>
        if top.score - second.score ≤ 2 then base ++ [closenessNote top second] else base
    let diff : Int :=
      match rest with
      | [] => 5
      | second :: _ => top.score - second.score
    let confidence := if diff > 3 then "High" else if diff > 1 then "Medium" else "Low"
    some { database := top.name, confidence := confidence, reasoning := reasoning }

/-- First alternative rule's payload (Analytics + High scalability). -/
def clickhouseAlt : AltSuggestion :=
  { database := "ClickHouse or Apache Druid"
    reason := "Columnar databases optimized for massive-scale analytics and OLAP queries with superior compression and query performance." }

/-- Second alternative rule's payload (Real-time + Unstructured). -/
def redisKafkaAlt : AltSuggestion :=
  { database := "Redis or Apache Kafka"
    reason := "In-memory data stores and streaming platforms optimized for real-time data processing and sub-millisecond latency." }

/-- Third alternative rule's payload (High scalability + High transactions). -/
def cockroachAlt : AltSuggestion :=
  { database := "CockroachDB or Google Spanner"
    reason := "Distributed SQL databases offering both horizontal scalability and strong consistency (bypassing CAP theorem limitations)." }

/-- Fourth alternative rule's payload (Unstructured + Analytics). -/
def elasticsearchAlt : AltSuggestion :=
  { database := "Elasticsearch"
    reason := "Excellent for full-text search, log analytics, and unstructured data exploration with powerful aggregation capabilities." }

/-- Fifth alternative rule's payload (any Real-time application). -/
def timescaleAlt : AltSuggestion :=
  { database := "TimescaleDB or InfluxDB"
    reason := "Specialized time-series databases for IoT, monitoring, and event-driven applications requiring time-based queries." }

/-- `DecisionEngine.suggest_alternatives(user_inputs)`: the five `if` blocks in
source order, each appending its alternative when its conjunction holds. -/
def suggest_alternatives (raw : RawInputs) : List AltSuggestion :=
  (if raw.app_type = "Analytics" ∧ raw.scalability = "High" then [clickhouseAlt] else [])
  ++ (if raw.app_type = "Real-time" ∧ raw.data_structure = "Unstructured"
    then [redisKafkaAlt] else [])
  ++ (if raw.scalability = "High" ∧ raw.transactions = "High" then [cockroachAlt] else [])
  ++ (if raw.data_structure = "Unstructured" ∧ raw.app_type = "Analytics"
    then [elasticsearchAlt] else [])
  ++ (if raw.app_type = "Real-time" then [timescaleAlt] else [])

/-- Lifts an `Option` into `Except`, naming the Python exception `none` stands for. -/
def ofOption (e : String) : Option α → Except String α
  | some a => Except.ok a
  | none => Except.error e

/-- `DecisionEngine.analyze(user_inputs)`: `calculate_scores` runs first and
accesses all five dict keys (so a missing key raises there, before anything
else); once it succeeds the five values are re-read without possible failure
(`extractInputs`) and the remaining steps are the source's straight-line
composition. -/
def analyze (u : UserInputs) : Except String AnalysisResult := do
  let scores ← calculate_scores u
  let raw ← extractInputs u
  let profiles := generate_database_profiles scores
  let tradeoffs := identify_tradeoffs raw
  let recommendation ← ofOption "IndexError: list index out of range"
    (generate_recommendation profiles raw)
  let alternatives := suggest_alternatives raw
  return { profiles := profiles, tradeoffs := tradeoffs,
           recommendation := recommendation, alternatives := alternatives,
           scores := scores }

/-- The `app_type` enumeration of the spec. -/
inductive AppType
  | Web
  | Analytics
  | RealTime
deriving DecidableEq, Fintype, Repr

def AppType.toValue : AppType → String
  | .Web => "Web"
  | .Analytics => "Analytics"
  | .RealTime => "Real-time"

/-- The `data_structure` enumeration of the spec. -/
inductive DataShape
  | Structured
  | SemiStructured
  | Unstructured
deriving DecidableEq, Fintype, Repr

def DataShape.toValue : DataShape → String
  | .Structured => "Structured"
  | .SemiStructured => "Semi-structured"
  | .Unstructured => "Unstructured"

/-- The `scalability` enumeration of the spec. -/
inductive ScaleNeed
  | Low
  | Medium
  | High
deriving DecidableEq, Fintype, Repr

def ScaleNeed.toValue : ScaleNeed → String
  | .Low => "Low"
  | .Medium => "Medium"
  | .High => "High"

/-- The `transactions` enumeration of the spec. -/
inductive TxNeed
  | Low
  | High
deriving DecidableEq, Fintype, Repr

def TxNeed.toValue : TxNeed → String
  | .Low => "Low"
  | .High => "High"

/-- The `schema_flexibility` enumeration of the spec. -/
inductive FlexNeed
  | Yes
  | No
deriving DecidableEq, Fintype, Repr

def FlexNeed.toValue : FlexNeed → String
  | .Yes => "Yes"
  | .No => "No"

/-- A valid analysis input: one value of each enumeration per axis. -/
structure ValidInput where
  app_type : AppType
  data_structure : DataShape
  scalability : ScaleNeed
  transactions : TxNeed
  schema_flexibility : FlexNeed
deriving DecidableEq, Fintype

/-- The string-valued input dict a valid input denotes. -/
def ValidInput.toRaw (v : ValidInput) : RawInputs :=
  ⟨v.app_type.toValue, v.data_structure.toValue, v.scalability.toValue,
   v.transactions.toValue, v.schema_flexibility.toValue⟩

/-- The fixed tie-break priority: position in `self.databases` order
(MySQL, PostgreSQL, MongoDB); other names sort last. -/
def priorityOf (name : String) : Nat :=
  if name = "MySQL" then 0
  else if name = "PostgreSQL" then 1
  else if name = "MongoDB" then 2
  else 3

/-- The five criteria, in the order `calculate_scores` processes them. -/
inductive Criterion
  | appType
  | dataStructure
  | scalability
  | transactions
  | schemaFlexibility
deriving DecidableEq, Fintype, Repr

/-- The score matrix belonging to a criterion. -/
def matrixOf : Criterion → (String → Option Scores)
  | .appType => app_type_scores
  | .dataStructure => data_structure_scores
  | .scalability => scalability_scores
  | .transactions => transaction_scores
  | .schemaFlexibility => schema_scores

/-- The input field belonging to a criterion. -/
def valueOf : Criterion → RawInputs → String
  | .appType, raw => raw.app_type
  | .dataStructure, raw => raw.data_structure
  | .scalability, raw => raw.scalability
  | .transactions, raw => raw.transactions
  | .schemaFlexibility, raw => raw.schema_flexibility

/-- The points a criterion contributes to one candidate on a given input. -/
def criterionPoints (c : Criterion) (raw : RawInputs) (db : DBId) : Int :=
  (contributionOf (matrixOf c) (valueOf c raw)).get db

/-- The ordering claimed of the ranked list: strictly higher score first, and
on equal scores the candidate earlier in the fixed priority order first. -/
def rankedRel (a b : DatabaseProfile) : Prop :=
  b.score < a.score ∨ (a.score = b.score ∧ priorityOf a.name < priorityOf b.name)

instance : DecidableRel rankedRel := fun a b => by
  unfold rankedRel; infer_instance

lemma gen_profiles_shape (scores : Scores) :
    ∃ x y z, generate_database_profiles scores = [x, y, z] :=
  List.length_eq_three.mp
    (List.perm_insertionSort (fun a b : DatabaseProfile => b.score ≤ a.score) _).length_eq

lemma analyze_toUser (raw : RawInputs) :
    ∃ rec, generate_recommendation (generate_database_profiles (calcScores raw)) raw = some rec ∧
      analyze (toUserInputs raw) = Except.ok
        ⟨generate_database_profiles (calcScores raw), identify_tradeoffs raw, rec,
          suggest_alternatives raw, calcScores raw⟩ := by
  obtain ⟨x, y, z, hprof⟩ := gen_profiles_shape (calcScores raw)
  have hgen : ∃ rec,
      generate_recommendation (generate_database_profiles (calcScores raw)) raw = some rec := by
    rw [hprof]; exact ⟨_, rfl⟩
  obtain ⟨rec, hrec⟩ := hgen
  refine ⟨rec, hrec, ?_⟩
  have h2 : analyze (toUserInputs raw) =
      (ofOption "IndexError: list index out of range"
        (generate_recommendation (generate_database_profiles (calcScores raw)) raw)).bind
        (fun rec => Except.ok
          ⟨generate_database_profiles (calcScores raw), identify_tradeoffs raw, rec,
            suggest_alternatives raw, calcScores raw⟩) := rfl
  rw [h2, hrec]
  rfl

lemma analyze_isOk_toUser (raw : RawInputs) : (analyze (toUserInputs raw)).isOk = true := by
  obtain ⟨rec, _, hok⟩ := analyze_toUser raw
  rw [hok]
  rfl

lemma pairwise_ranked_valid : ∀ v : ValidInput,
    List.Pairwise rankedRel (generate_database_profiles (calcScores v.toRaw)) := by
  intro v
  rcases v with ⟨a, d, s, t, f⟩
  cases a <;> cases d <;> cases s <;> cases t <;> cases f <;> decide

lemma addCriterion_get (s : Scores) (m : String → Option Scores) (v : String) (db : DBId) :
    (addCriterion s m v).get db = s.get db + (contributionOf m v).get db := by
  rcases h : m v with _ | c <;>
    simp only [addCriterion, contributionOf, h] <;>
    cases db <;> simp [Scores.get, addScores]

lemma calcScores_get (raw : RawInputs) (db : DBId) :
    (calcScores raw).get db =
      criterionPoints .appType raw db + criterionPoints .dataStructure raw db +
      criterionPoints .scalability raw db + criterionPoints .transactions raw db +
      criterionPoints .schemaFlexibility raw db := by
  simp only [calcScores, criterionPoints, matrixOf, valueOf, addCriterion_get]
  cases db <;> simp [Scores.get, scoresZero]

lemma gen_rec_cons_eq (top second : DatabaseProfile) (rest : List DatabaseProfile)
    (raw : RawInputs) :
    generate_recommendation (top :: second :: rest) raw = some
      { database := top.name
        confidence := if top.score - second.score > 3 then "High"
          else if top.score - second.score > 1 then "Medium" else "Low"
        reasoning := if top.score - second.score ≤ 2
          then baseReasoning top.name raw ++ [closenessNote top second]
          else baseReasoning top.name raw } := rfl

lemma gen_rec_single_eq (top : DatabaseProfile) (raw : RawInputs) :
    generate_recommendation [top] raw = some
      { database := top.name, confidence := "High",
        reasoning := baseReasoning top.name raw } := rfl

lemma head_ne_not_mem (a : String) (l : List String)
    (ha : a.data.head? = some 'N')
    (hl : l.all (fun s => s.data.head? != some 'N') = true) : a ∉ l := by
  intro hmem
  have h := List.all_eq_true.mp hl a hmem
  rw [ha] at h
  simp at h

lemma closenessNote_not_mem_base (top second : DatabaseProfile) (name : String)
    (raw : RawInputs) : closenessNote top second ∉ baseReasoning name raw := by
  refine head_ne_not_mem _ _ rfl ?_
  unfold baseReasoning
  split_ifs <;> decide

/-- Claim C1, counterexample: the input whose `app_type` value `Mobile` lies
outside the enumeration does not make `analyze` raise; an `AnalysisResult` is
produced (with the unknown criterion contributing zero, so scores 15/15/7),
refuting the claimed `ValidationError` for out-of-enumeration values. -/
theorem analyze_unknown_value_returns_result :
    (analyze (toUserInputs ⟨"Mobile", "Structured", "Low", "High", "No"⟩)).isOk = true ∧
    (analyze (toUserInputs ⟨"Mobile", "Structured", "Low", "High", "No"⟩)).toOption.map
      AnalysisResult.scores = some ⟨15, 15, 7⟩ := by
  constructor <;> decide

/-- Claim C1, amended: `analyze` fails (with the `KeyError` of the first dict
access) exactly when one of the five keys is missing from the input; an input
holding all five keys never raises, even when values lie outside their
enumerations, and an `AnalysisResult` is produced. -/
theorem analyze_isOk_eq_keys_present :
    ∀ u : UserInputs, (analyze u).isOk =
      (u.app_type.isSome && u.data_structure.isSome && u.scalability.isSome &&
        u.transactions.isSome && u.schema_flexibility.isSome) := by
  intro u
  rcases u with ⟨a, d, s, t, f⟩
  cases a <;> cases d <;> cases s <;> cases t <;> cases f <;>
    first
      | rfl
      | exact analyze_isOk_toUser ⟨_, _, _, _, _⟩

/-- Claim C2: on input {Web, Structured, Low, High, No}, `analyze` yields
scores MySQL=18, PostgreSQL=18, MongoDB=9; the tie-break ranks MySQL top; the
confidence is Low (gap 0); the trade-off list contains the read-vs-write
trade-off fired by `app_type = Web`; and the reasoning ends with the closeness
note naming PostgreSQL. -/
theorem analyze_web_structured_scenario :
    ∃ r, analyze (toUserInputs ⟨"Web", "Structured", "Low", "High", "No"⟩) = Except.ok r ∧
      r.scores = ⟨18, 18, 9⟩ ∧
      r.profiles.map DatabaseProfile.name = ["MySQL", "PostgreSQL", "MongoDB"] ∧
      r.recommendation.database = "MySQL" ∧
      r.recommendation.confidence = "Low" ∧
      readWriteTradeoff ∈ r.tradeoffs ∧
      identify_tradeoffs ⟨"Web", "Structured", "Low", "High", "No"⟩ = [readWriteTradeoff] ∧
      r.recommendation.reasoning.getLast? = some
        "Note: PostgreSQL scored closely (18 vs 18). Consider evaluating both options based on team expertise." := by
  refine ⟨_, rfl, ?_, ?_, ?_, ?_, ?_, ?_, ?_⟩ <;> decide

/-- Claim C3: for every valid input, the ranked profile list is sorted in
descending score order, with exact ties ordered by the fixed priority
MySQL, PostgreSQL, MongoDB (`rankedRel` pairwise on the list); the ranking is
a pure function of the input, so repeated calls agree. -/
theorem ranking_sorted_desc_with_priority_ties :
    ∀ v : ValidInput, ∃ r, analyze (toUserInputs v.toRaw) = Except.ok r ∧
      r.profiles = generate_database_profiles (calcScores v.toRaw) ∧
      List.Pairwise rankedRel r.profiles := by
  intro v
  obtain ⟨rec, _, hok⟩ := analyze_toUser v.toRaw
  exact ⟨_, hok, rfl, pairwise_ranked_valid v⟩

/-- Claim C4: with a runner-up, the confidence is High iff the score gap
exceeds 3, Medium iff it is in (1, 3], and Low iff it is at most 1; with a
single ranked profile the gap is treated as 5, forcing High. -/
theorem confidence_matches_score_gap :
    ∀ (raw : RawInputs) (top second : DatabaseProfile) (rest : List DatabaseProfile),
      (∃ r, generate_recommendation (top :: second :: rest) raw = some r ∧
        (r.confidence = "High" ↔ 3 < top.score - second.score) ∧
        (r.confidence = "Medium" ↔
          1 < top.score - second.score ∧ top.score - second.score ≤ 3) ∧
        (r.confidence = "Low" ↔ top.score - second.score ≤ 1)) ∧
      (∃ r, generate_recommendation [top] raw = some r ∧ r.confidence = "High") := by
  intro raw top second rest
  constructor
  · refine ⟨_, gen_rec_cons_eq top second rest raw, ?_, ?_, ?_⟩ <;>
      simp only [] <;>
      split_ifs <;>
      first
        | exact iff_of_true rfl (by omega)
        | exact iff_of_false (by decide) (by omega)
  · exact ⟨_, gen_rec_single_eq top raw, rfl⟩

/-- Claim C5: for every valid input and candidate, the total score is the sum
of exactly five per-criterion contributions, each between 0 and 4, and the
total lies in [5, 20]. -/
theorem scores_are_sum_of_five_bounded_contributions :
    ∀ (v : ValidInput) (db : DBId),
      (calcScores v.toRaw).get db =
        criterionPoints .appType v.toRaw db + criterionPoints .dataStructure v.toRaw db +
        criterionPoints .scalability v.toRaw db + criterionPoints .transactions v.toRaw db +
        criterionPoints .schemaFlexibility v.toRaw db ∧
      (∀ c : Criterion, 0 ≤ criterionPoints c v.toRaw db ∧ criterionPoints c v.toRaw db ≤ 4) ∧
      5 ≤ (calcScores v.toRaw).get db ∧ (calcScores v.toRaw).get db ≤ 20 := by
  intro v db
  rcases v with ⟨a, d, s, t, f⟩
  cases a <;> cases d <;> cases s <;> cases t <;> cases f <;> cases db <;> decide

/-- Claim C6: `calculate_scores` never fails on a five-key input; the total is
always the sum of the five per-criterion contributions; and a criterion whose
supplied value is absent from its score matrix contributes zero to every
candidate, leaving the remaining criteria summed normally. -/
theorem unknown_criterion_contributes_zero :
    ∀ raw : RawInputs,
      calculate_scores (toUserInputs raw) = Except.ok (calcScores raw) ∧
      (∀ db : DBId, (calcScores raw).get db =
        criterionPoints .appType raw db + criterionPoints .dataStructure raw db +
        criterionPoints .scalability raw db + criterionPoints .transactions raw db +
        criterionPoints .schemaFlexibility raw db) ∧
      (∀ c : Criterion, matrixOf c (valueOf c raw) = none →
        ∀ db : DBId, criterionPoints c raw db = 0) := by
  intro raw
  refine ⟨rfl, fun db => calcScores_get raw db, ?_⟩
  intro c hc db
  simp only [criterionPoints, contributionOf, hc]
  cases db <;> rfl

/-- Witness for C6 at the concrete value `Mobile`, absent from the
application-type matrix. -/
theorem unknown_criterion_contributes_zero_witness :
    criterionPoints Criterion.appType ⟨"Mobile", "Structured", "Low", "High", "No"⟩
      DBId.mysql = 0 :=
  (unknown_criterion_contributes_zero ⟨"Mobile", "Structured", "Low", "High", "No"⟩).2.2
    Criterion.appType (by decide) DBId.mysql

/-- Claim C7: the closeness note is appended exactly when a runner-up exists
and the gap is at most 2, and it is then the last reasoning entry; when the
gap exceeds 2 the reasoning is the base list, which never contains the note;
with no runner-up the reasoning is the base list alone. -/
theorem closeness_note_appended_iff_gap_le_two :
    ∀ (raw : RawInputs) (top second : DatabaseProfile) (rest : List DatabaseProfile),
      (top.score - second.score ≤ 2 →
        ∃ r, generate_recommendation (top :: second :: rest) raw = some r ∧
          r.reasoning = baseReasoning top.name raw ++ [closenessNote top second] ∧
          r.reasoning.getLast? = some (closenessNote top second)) ∧
      (¬ top.score - second.score ≤ 2 →
        ∃ r, generate_recommendation (top :: second :: rest) raw = some r ∧
          r.reasoning = baseReasoning top.name raw ∧
          closenessNote top second ∉ r.reasoning) ∧
      (∃ r, generate_recommendation [top] raw = some r ∧
        r.reasoning = baseReasoning top.name raw) := by
  intro raw top second rest
  refine ⟨fun hle => ?_, fun hgt => ?_, ⟨_, gen_rec_single_eq top raw, rfl⟩⟩
  · refine ⟨_, gen_rec_cons_eq top second rest raw, ?_, ?_⟩ <;>
      simp only [if_pos hle]
    simp [List.getLast?_concat]
  · refine ⟨_, gen_rec_cons_eq top second rest raw, ?_, ?_⟩ <;>
      simp only [if_neg hgt]
    exact closenessNote_not_mem_base top second top.name raw

/-- Witness for C7: both gap cases at concrete profiles — gap 0 (18 vs 18)
appends the note last, gap 9 (19 vs 10) leaves the base reasoning note-free. -/
theorem closeness_note_appended_iff_gap_le_two_witness :
    (∃ r, generate_recommendation [mysqlProfile 18, postgresqlProfile 18]
        ⟨"Web", "Structured", "Low", "High", "No"⟩ = some r ∧
      r.reasoning = baseReasoning (mysqlProfile 18).name ⟨"Web", "Structured", "Low", "High", "No"⟩
        ++ [closenessNote (mysqlProfile 18) (postgresqlProfile 18)] ∧
      r.reasoning.getLast? = some (closenessNote (mysqlProfile 18) (postgresqlProfile 18))) ∧
    (∃ r, generate_recommendation [mongodbProfile 19, postgresqlProfile 10]
        ⟨"Real-time", "Unstructured", "High", "Low", "Yes"⟩ = some r ∧
      r.reasoning = baseReasoning (mongodbProfile 19).name
        ⟨"Real-time", "Unstructured", "High", "Low", "Yes"⟩ ∧
      closenessNote (mongodbProfile 19) (postgresqlProfile 10) ∉ r.reasoning) :=
  ⟨(closeness_note_appended_iff_gap_le_two ⟨"Web", "Structured", "Low", "High", "No"⟩
      (mysqlProfile 18) (postgresqlProfile 18) []).1 (by decide),
   (closeness_note_appended_iff_gap_le_two ⟨"Real-time", "Unstructured", "High", "Low", "Yes"⟩
      (mongodbProfile 19) (postgresqlProfile 10) []).2.1 (by decide)⟩

set_option maxRecDepth 8192 in
/-- Claim C8: for every valid input, the trade-off list is exactly the
payloads of the rules whose triggers fire, kept in rule-declaration order;
every firing rule contributes and none suppresses another. -/
theorem tradeoffs_are_firing_rules_in_order :
    ∀ v : ValidInput,
      identify_tradeoffs v.toRaw =
        (tradeoffRules.filter (fun rule => rule.1 v.toRaw)).map Prod.snd := by
  intro v
  rcases v with ⟨a, d, s, t, f⟩
  cases a <;> cases d <;> cases s <;> cases t <;> cases f <;> decide

/-- Claim C9: on input {Real-time, Unstructured, High, Low, Yes}, MongoDB is
ranked top, and the alternative list is exactly the Redis/Kafka suggestion
(Real-time + Unstructured) followed by the TimescaleDB/InfluxDB suggestion
(any Real-time application): both matching rules fire, neither suppressed. -/
theorem analyze_realtime_unstructured_scenario :
    ∃ r, analyze (toUserInputs ⟨"Real-time", "Unstructured", "High", "Low", "Yes"⟩) =
        Except.ok r ∧
      r.profiles.map DatabaseProfile.name = ["MongoDB", "PostgreSQL", "MySQL"] ∧
      r.recommendation.database = "MongoDB" ∧
      redisKafkaAlt ∈ r.alternatives ∧
      timescaleAlt ∈ r.alternatives ∧
      r.alternatives = [redisKafkaAlt, timescaleAlt] := by
  refine ⟨_, rfl, ?_, ?_, ?_, ?_, ?_⟩ <;> decide

/-- Claim C10: any input dict holding all five keys — whatever the values —
makes `analyze` return a result without raising; its scores record covers
exactly the three fixed candidates, and its ranked list holds exactly three
profiles, one per candidate. -/
theorem analyze_total_on_five_key_inputs :
    ∀ a d s t f : String,
      ∃ r, analyze ⟨some a, some d, some s, some t, some f⟩ = Except.ok r ∧
        r.scores = calcScores ⟨a, d, s, t, f⟩ ∧
        r.profiles.length = 3 ∧
        (r.profiles.map DatabaseProfile.name).Perm ["MySQL", "PostgreSQL", "MongoDB"] := by
  intro a d s t f
  obtain ⟨rec, _, hok⟩ := analyze_toUser ⟨a, d, s, t, f⟩
  have hperm := List.perm_insertionSort (fun a b : DatabaseProfile => b.score ≤ a.score)
    [mysqlProfile (calcScores ⟨a, d, s, t, f⟩).mysql,
     postgresqlProfile (calcScores ⟨a, d, s, t, f⟩).postgresql,
     mongodbProfile (calcScores ⟨a, d, s, t, f⟩).mongodb]
  exact ⟨_, hok, rfl, hperm.length_eq, hperm.map DatabaseProfile.name⟩
